import Mathlib

/-!
Verification of the DHCP-server detection module
(`src/provisioningserver/dhcp/detect.py`).

Bytes are modelled as `Nat` (values 0-255 where the source guarantees it),
byte strings as `List Nat`.  Python slicing `data[i:j]` (with nonnegative
bounds) is `slice data i j`.  Fallible operations (`socket.inet_ntoa`,
which raises unless given exactly 4 bytes) return `Option`.  The socket
receive loop of `receive_offers` is modelled over an explicit finite list
of received datagrams terminated by the idle-read timeout; a raised
exception other than the timeout is `none`.
-/

set_option maxRecDepth 8000
set_option maxHeartbeats 1600000

namespace DhcpDetect

/-- Python `data[i:j]` for `0 ≤ i ≤ j`: drop `i` elements, take `j - i`. -/
def slice (l : List Nat) (i j : Nat) : List Nat :=
  (l.drop i).take (j - i)

/-- `make_transaction_ID`: concatenates four bytes, each an independent
draw of `randint(0, 255)` packed with `struct.pack('!B', ·)`.  The draws
are passed in explicitly, each ranging over 0-255 (`Fin 256`). -/
def make_transaction_ID (draws : Fin 4 → Fin 256) : List Nat :=
  (List.finRange 4).map fun i => (draws i : Nat)

/-- `DHCPDiscoverPacket._build`: the DISCOVER datagram assembled
byte-for-byte from the transaction ID and the packed 6-octet MAC
(`self.packed_mac`, the result of `string_mac_to_packed`). -/
def dhcpDiscoverPacket (transactionID packedMac : List Nat) : List Nat :=
  [0x01]                                  -- Message type: Boot Request (1)
  ++ [0x01]                               -- Hardware type: Ethernet
  ++ [0x06]                               -- Hardware address length: 6
  ++ [0x00]                               -- Hops: 0
  ++ transactionID
  ++ [0x00, 0x00]                         -- Seconds elapsed: 0
  ++ [0x80, 0x00]                         -- Bootp flags: broadcast
  ++ [0x00, 0x00, 0x00, 0x00]             -- Client IP address: 0.0.0.0
  ++ [0x00, 0x00, 0x00, 0x00]             -- Your (client) IP address
  ++ [0x00, 0x00, 0x00, 0x00]             -- Next server IP address
  ++ [0x00, 0x00, 0x00, 0x00]             -- Relay agent IP address
  ++ packedMac
  ++ List.replicate 10 0x00               -- Client hardware address padding
  ++ List.replicate 67 0x00               -- Server host name not given
  ++ List.replicate 125 0x00              -- Boot file name not given
  ++ [0x63, 0x82, 0x53, 0x63]             -- Magic cookie: DHCP
  ++ [0x35, 0x01, 0x01]                   -- Option 53: DHCP Discover
  ++ [0x3d, 0x06] ++ packedMac            -- Option 61: client identifier
  ++ [0x37, 0x03, 0x03, 0x01, 0x06]       -- Option 55: parameter request
  ++ [0xff]                               -- End Option

/-- `socket.inet_ntoa`: renders exactly 4 bytes as dotted decimal,
raising (here: `none`) on any other length. -/
def inet_ntoa : List Nat → Option String
  | [a, b, c, d] =>
      some (toString a ++ "." ++ toString b ++ "." ++ toString c
        ++ "." ++ toString d)
  | _ => none

/-- `DHCPOfferPacket.__init__`, transaction-ID field: `data[4:8]`.
Python slicing never faults, so this is total. -/
def offerTransactionID (data : List Nat) : List Nat :=
  slice data 4 8

/-- `DHCPOfferPacket.__init__`, server-ID field:
`socket.inet_ntoa(data[245:249])`, which raises unless the slice has
exactly 4 bytes. -/
def offerServerID (data : List Nat) : Option String :=
  inet_ntoa (slice data 245 249)

/-- Constructing a `DHCPOfferPacket` from a received datagram: yields the
transaction-ID field and the decoded server address, or fails (as the
constructor raises from `inet_ntoa`) on short input. -/
def decodeOffer (data : List Nat) : Option (List Nat × String) :=
  match offerServerID data with
  | some s => some (offerTransactionID data, s)
  | none => none

/-- One iteration of the `receive_offers` loop body on a received
datagram: decode it and, if the transaction ID matches, add the server to
the set; a decode failure propagates out of the loop (`none`). -/
def receive_step (transaction_id : List Nat) (servers : Finset String)
    (data : List Nat) : Option (Finset String) :=
  match decodeOffer data with
  | none => none
  | some (t, s) =>
      some (if t = transaction_id then insert s servers else servers)

/-- The `receive_offers` loop over the remaining incoming datagrams; the
end of the list is the idle-read timeout, at which the accumulated set is
returned.  A raised decode error aborts the loop without a result. -/
def receive_offers_aux (transaction_id : List Nat) :
    List (List Nat) → Finset String → Option (Finset String)
  | [], servers => some servers
  | data :: rest, servers =>
      match receive_step transaction_id servers data with
      | none => none
      | some next => receive_offers_aux transaction_id rest next

/-- `receive_offers`: collect offering servers from the given stream of
datagrams, starting from the empty set. -/
def receive_offers (transaction_id : List Nat)
    (stream : List (List Nat)) : Option (Finset String) :=
  receive_offers_aux transaction_id stream ∅

/-- Errno `EADDRNOTAVAIL` (Linux value, as Python's `errno` module). -/
def errno_EADDRNOTAVAIL : Nat := 99

/-- Errno `ENODEV` (Linux value, as Python's `errno` module). -/
def errno_ENODEV : Nat := 19

/-- The outcome of `probe_dhcp`: a successful server set, a raised
`IOError` carrying an errno, or some other raised failure (which the
`except IOError` clause does not catch). -/
inductive ProbeOutcome where
  | ok (servers : Finset String)
  | ioError (errno : Nat)
  | otherError
  deriving DecidableEq

/-- `probe_interface`: runs the probe and post-processes its outcome.
`IOError` with errno `EADDRNOTAVAIL` or `ENODEV` is absorbed into an
empty result set; any other `IOError` is re-raised; other failures are
not caught; a successful result is returned unchanged. -/
def probe_interface (outcome : ProbeOutcome) : ProbeOutcome :=
  match outcome with
  | .ok servers => .ok servers
  | .ioError e =>
      if e = errno_EADDRNOTAVAIL then .ok ∅
      else if e = errno_ENODEV then .ok ∅
      else .ioError e
  | .otherError => .otherError

/-- A datagram of length 249 with the given 4-byte transaction ID at
offset 4 and the given 4-byte server address at offset 245; used as a
concrete OFFER in witnesses. -/
def mkOffer (tid srv : List Nat) : List Nat :=
  List.replicate 4 0 ++ tid ++ List.replicate 237 0 ++ srv

end DhcpDetect

namespace DhcpDetect

/-- Helper: a list of length 4 is a literal four-element list. -/
theorem list_length_eq_four {l : List Nat} (h : l.length = 4) :
    ∃ a b c d, l = [a, b, c, d] := by
  rcases l with _ | ⟨a, _ | ⟨b, _ | ⟨c, _ | ⟨d, _ | ⟨e, tl⟩⟩⟩⟩⟩ <;>
    simp only [List.length_cons, List.length_nil] at h <;>
    first
      | omega
      | exact ⟨a, b, c, d, rfl⟩

/-- Helper: a list of length 6 is a literal six-element list. -/
theorem list_length_eq_six {l : List Nat} (h : l.length = 6) :
    ∃ a b c d e f, l = [a, b, c, d, e, f] := by
  rcases l with _ | ⟨a, _ | ⟨b, _ | ⟨c, _ | ⟨d, _ | ⟨e, _ | ⟨f, _ | ⟨g, tl⟩⟩⟩⟩⟩⟩⟩ <;>
    simp only [List.length_cons, List.length_nil] at h <;>
    first
      | omega
      | exact ⟨a, b, c, d, e, f, rfl⟩

/-- Claim C9: every call to the transaction-ID generator returns a byte
string of exactly 4 bytes, for every outcome of the four random draws,
each ranging over 0-255. -/
theorem make_transaction_ID_length (draws : Fin 4 → Fin 256) :
    (make_transaction_ID draws).length = 4 := by
  simp [make_transaction_ID]

/-- Claim C1: for every 4-byte transaction ID and every packed 6-octet
MAC address (as produced by `string_mac_to_packed` from its
colon-separated hex form), the encoded DISCOVER datagram has byte 0 =
0x01, bytes 1-3 = 0x01 0x06 0x00, bytes 4-8 = the transaction ID, bytes
8-10 = 0x0000, bytes 10-12 = 0x8000, bytes 12-28 all zero, bytes 28-34 =
the MAC octets, bytes 34-236 all zero, bytes 236-240 = the magic cookie
0x63 0x82 0x53 0x63, bytes 240-243 = 0x35 0x01 0x01, bytes 243-251 =
0x3d 0x06 followed by the MAC octets, bytes 251-256 =
0x37 0x03 0x03 0x01 0x06, and byte 256 = 0xff. -/
theorem discover_packet_layout (t m : List Nat)
    (ht : t.length = 4) (hm : m.length = 6) :
    slice (dhcpDiscoverPacket t m) 0 1 = [0x01] ∧
    slice (dhcpDiscoverPacket t m) 1 4 = [0x01, 0x06, 0x00] ∧
    slice (dhcpDiscoverPacket t m) 4 8 = t ∧
    slice (dhcpDiscoverPacket t m) 8 10 = [0x00, 0x00] ∧
    slice (dhcpDiscoverPacket t m) 10 12 = [0x80, 0x00] ∧
    slice (dhcpDiscoverPacket t m) 12 28 = List.replicate 16 0x00 ∧
    slice (dhcpDiscoverPacket t m) 28 34 = m ∧
    slice (dhcpDiscoverPacket t m) 34 236 = List.replicate 202 0x00 ∧
    slice (dhcpDiscoverPacket t m) 236 240 = [0x63, 0x82, 0x53, 0x63] ∧
    slice (dhcpDiscoverPacket t m) 240 243 = [0x35, 0x01, 0x01] ∧
    slice (dhcpDiscoverPacket t m) 243 251 = [0x3d, 0x06] ++ m ∧
    slice (dhcpDiscoverPacket t m) 251 256 = [0x37, 0x03, 0x03, 0x01, 0x06] ∧
    slice (dhcpDiscoverPacket t m) 256 257 = [0xff] := by
  obtain ⟨t0, t1, t2, t3, rfl⟩ := list_length_eq_four ht
  obtain ⟨m0, m1, m2, m3, m4, m5, rfl⟩ := list_length_eq_six hm
  refine ⟨?_, ?_, ?_, ?_, ?_, ?_, ?_, ?_, ?_, ?_, ?_, ?_, ?_⟩ <;>
    · simp only [dhcpDiscoverPacket, slice]
      norm_num [List.replicate_succ]

/-- Witness for C1 at a concrete transaction ID and MAC. -/
theorem discover_packet_layout_witness :
    [0x12, 0x34, 0x56, 0x78].length = 4 ∧
    [0xaa, 0xbb, 0xcc, 0xdd, 0xee, 0xff].length = 6 ∧
    (slice (dhcpDiscoverPacket [0x12, 0x34, 0x56, 0x78]
        [0xaa, 0xbb, 0xcc, 0xdd, 0xee, 0xff]) 28 34 =
      [0xaa, 0xbb, 0xcc, 0xdd, 0xee, 0xff]) :=
  ⟨rfl, rfl,
    (discover_packet_layout [0x12, 0x34, 0x56, 0x78]
      [0xaa, 0xbb, 0xcc, 0xdd, 0xee, 0xff] rfl rfl).2.2.2.2.2.2.1⟩

/-- Counterexample for C2 as stated: at a concrete transaction ID and
MAC, the encoded DISCOVER datagram is not 300 bytes long. -/
theorem discover_packet_length_ne_300 :
    (dhcpDiscoverPacket [0, 0, 0, 0] [0, 0, 0, 0, 0, 0]).length ≠ 300 := by
  decide

/-- Claim C2 (amended): for every 4-byte transaction ID and every 6-byte
MAC address, the encoded DISCOVER datagram is exactly 257 bytes long
(236-byte fixed BOOTP header plus 21 bytes of options), not 300. -/
theorem discover_packet_length (t m : List Nat)
    (ht : t.length = 4) (hm : m.length = 6) :
    (dhcpDiscoverPacket t m).length = 257 := by
  simp only [dhcpDiscoverPacket, List.length_append, List.length_cons,
    List.length_nil, List.length_replicate, ht, hm]

/-- Witness for the amended C2 at a concrete transaction ID and MAC. -/
theorem discover_packet_length_witness :
    [0x12, 0x34, 0x56, 0x78].length = 4 ∧
    [0xaa, 0xbb, 0xcc, 0xdd, 0xee, 0xff].length = 6 ∧
    (dhcpDiscoverPacket [0x12, 0x34, 0x56, 0x78]
      [0xaa, 0xbb, 0xcc, 0xdd, 0xee, 0xff]).length = 257 :=
  ⟨rfl, rfl,
    discover_packet_length [0x12, 0x34, 0x56, 0x78]
      [0xaa, 0xbb, 0xcc, 0xdd, 0xee, 0xff] rfl rfl⟩

/-- Helper: `inet_ntoa` fails on any input not of length 4. -/
theorem inet_ntoa_eq_none {bs : List Nat} (h : bs.length ≠ 4) :
    inet_ntoa bs = none := by
  rcases bs with _ | ⟨a, _ | ⟨b, _ | ⟨c, _ | ⟨d, _ | ⟨e, tl⟩⟩⟩⟩⟩ <;>
    first
      | rfl
      | simp at h

/-- Helper: on a datagram of at least 249 bytes the server-ID extraction
succeeds, and so does the whole offer decode, echoing the transaction-ID
slice. -/
theorem decodeOffer_eq {data : List Nat} (h : 249 ≤ data.length) :
    ∃ s, offerServerID data = some s ∧
      decodeOffer data = some (offerTransactionID data, s) := by
  have hl : (slice data 245 249).length = 4 := by
    simp only [slice, List.length_take, List.length_drop]
    omega
  obtain ⟨a, b, c, d, he⟩ := list_length_eq_four hl
  refine ⟨toString a ++ "." ++ toString b ++ "." ++ toString c
      ++ "." ++ toString d, ?_, ?_⟩ <;>
    simp [decodeOffer, offerServerID, he, inet_ntoa]

/-- Claim C5: decoding any datagram of at least 249 bytes whose bytes 4-8
equal the transaction ID `t` and whose bytes 245-249 equal the 4-byte
address `a0.a1.a2.a3` recovers exactly `t` and the dotted-decimal
rendering of that address; in particular this holds for a synthetic OFFER
built from an encoded DISCOVER by placing the address at offset 245. -/
theorem decode_roundtrip (t : List Nat) (a0 a1 a2 a3 : Nat)
    (data : List Nat) (hlen : 249 ≤ data.length)
    (ht : slice data 4 8 = t)
    (ha : slice data 245 249 = [a0, a1, a2, a3]) :
    decodeOffer data = some (t,
      toString a0 ++ "." ++ toString a1 ++ "." ++ toString a2
        ++ "." ++ toString a3) := by
  simp [decodeOffer, offerServerID, offerTransactionID, ha, ht, inet_ntoa]

/-- A synthetic OFFER: the encoded DISCOVER for a concrete transaction ID
and MAC, with the server address 10.0.0.1 placed at offset 245. -/
def syntheticOffer : List Nat :=
  (dhcpDiscoverPacket [0x12, 0x34, 0x56, 0x78]
      [0xaa, 0xbb, 0xcc, 0xdd, 0xee, 0xff]).take 245
    ++ [10, 0, 0, 1]
    ++ (dhcpDiscoverPacket [0x12, 0x34, 0x56, 0x78]
      [0xaa, 0xbb, 0xcc, 0xdd, 0xee, 0xff]).drop 249

/-- Witness for C5 on the synthetic OFFER built from a DISCOVER. -/
theorem decode_roundtrip_witness :
    249 ≤ syntheticOffer.length ∧
    slice syntheticOffer 4 8 = [0x12, 0x34, 0x56, 0x78] ∧
    slice syntheticOffer 245 249 = [10, 0, 0, 1] ∧
    decodeOffer syntheticOffer = some ([0x12, 0x34, 0x56, 0x78],
      toString 10 ++ "." ++ toString 0 ++ "." ++ toString 0
        ++ "." ++ toString 1) :=
  ⟨by decide, by decide, by decide,
    decode_roundtrip [0x12, 0x34, 0x56, 0x78] 10 0 0 1 syntheticOffer
      (by decide) (by decide) (by decide)⟩

/-- Claim C8: offer decoding depends only on bytes 4-8 and bytes 245-249
of the input; any two datagrams of at least 249 bytes agreeing on those
two slices decode identically, with no validation of the magic cookie or
message type. -/
theorem decode_depends_only_on_slices (d1 d2 : List Nat)
    (h1 : 249 ≤ d1.length) (h2 : 249 ≤ d2.length)
    (ht : slice d1 4 8 = slice d2 4 8)
    (hs : slice d1 245 249 = slice d2 245 249) :
    decodeOffer d1 = decodeOffer d2 := by
  simp only [decodeOffer, offerServerID, offerTransactionID, ht, hs]

/-- Witness for C8: two datagrams that differ everywhere outside the two
decoded slices (including the magic-cookie area) decode identically. -/
theorem decode_depends_only_on_slices_witness :
    249 ≤ (mkOffer [1, 2, 3, 4] [10, 0, 0, 1]).length ∧
    249 ≤ ([9, 9, 9, 9] ++ [1, 2, 3, 4]
      ++ List.replicate 237 7 ++ [10, 0, 0, 1]).length ∧
    decodeOffer (mkOffer [1, 2, 3, 4] [10, 0, 0, 1]) =
      decodeOffer ([9, 9, 9, 9] ++ [1, 2, 3, 4]
        ++ List.replicate 237 7 ++ [10, 0, 0, 1]) :=
  ⟨by decide, by decide,
    decode_depends_only_on_slices _ _ (by decide) (by decide)
      (by decide) (by decide)⟩

/-- Claim C10: offer decoding succeeds exactly on inputs of length at
least 249 — such inputs yield a 4-byte transaction ID and a server
address; shorter inputs fail, the failure coming from the server-address
conversion (the transaction-ID slice is total and never faults). -/
theorem decode_length_behaviour (data : List Nat) :
    (249 ≤ data.length →
      ∃ s, decodeOffer data = some (offerTransactionID data, s) ∧
        (offerTransactionID data).length = 4) ∧
    (data.length < 249 →
      decodeOffer data = none ∧ offerServerID data = none) := by
  constructor
  · intro h
    obtain ⟨s, _, hdec⟩ := decodeOffer_eq h
    refine ⟨s, hdec, ?_⟩
    simp only [offerTransactionID, slice, List.length_take, List.length_drop]
    omega
  · intro h
    have hn : offerServerID data = none := by
      apply inet_ntoa_eq_none
      simp only [slice, List.length_take, List.length_drop]
      omega
    exact ⟨by simp [decodeOffer, hn], hn⟩

/-- Witness for C10 at a 249-byte and at a 248-byte datagram. -/
theorem decode_length_behaviour_witness :
    (249 ≤ (mkOffer [1, 2, 3, 4] [10, 0, 0, 1]).length ∧
      ∃ s, decodeOffer (mkOffer [1, 2, 3, 4] [10, 0, 0, 1]) =
          some (offerTransactionID (mkOffer [1, 2, 3, 4] [10, 0, 0, 1]), s) ∧
        (offerTransactionID (mkOffer [1, 2, 3, 4] [10, 0, 0, 1])).length = 4) ∧
    ((List.replicate 248 0).length < 249 ∧
      decodeOffer (List.replicate 248 0) = none ∧
      offerServerID (List.replicate 248 0) = none) :=
  ⟨⟨by decide, (decode_length_behaviour _).1 (by decide)⟩,
    ⟨by decide, (decode_length_behaviour _).2 (by decide)⟩⟩

/-- Helper: the receive loop, run from any accumulated set over a stream
of datagrams each of at least 249 bytes, returns that set united with the
deduplicated server addresses of the datagrams whose transaction ID
matches. -/
theorem receive_offers_aux_spec (tid : List Nat) (stream : List (List Nat)) :
    ∀ servers : Finset String, (∀ d ∈ stream, 249 ≤ d.length) →
      receive_offers_aux tid stream servers =
        some (servers ∪
          ((stream.filter fun d => offerTransactionID d == tid).filterMap
            offerServerID).toFinset) := by
  induction stream with
  | nil => intro servers _; simp [receive_offers_aux]
  | cons data rest ih =>
    intro servers h
    have hd : 249 ≤ data.length := h data (by simp)
    obtain ⟨s, hs, hdec⟩ := decodeOffer_eq hd
    have hrest : ∀ d ∈ rest, 249 ≤ d.length := fun d hmem => h d (by simp [hmem])
    by_cases hm : offerTransactionID data = tid
    · simp only [receive_offers_aux, receive_step, hdec, hm,
        beq_self_eq_true, if_true, List.filter_cons, List.filterMap_cons,
        hs, List.toFinset_cons]
      rw [ih (insert s servers) hrest, Finset.union_insert,
        Finset.insert_union]
    · simp only [receive_offers_aux, receive_step, hdec, if_neg hm,
        List.filter_cons, beq_iff_eq, hm, if_false]
      exact ih servers hrest

/-- Claim C3: for every sent transaction ID and every finite stream of
received datagrams (each at least 249 bytes) terminated by an idle-read
timeout, `receive_offers` returns exactly the deduplicated set of
dotted-decimal server addresses decoded from the datagrams whose bytes
4-8 equal the transaction ID; non-matching datagrams contribute
nothing. -/
theorem receive_offers_exact (tid : List Nat) (stream : List (List Nat))
    (h : ∀ d ∈ stream, 249 ≤ d.length) :
    receive_offers tid stream =
      some (((stream.filter fun d => offerTransactionID d == tid).filterMap
        offerServerID).toFinset) := by
  rw [receive_offers, receive_offers_aux_spec tid stream ∅ h,
    Finset.empty_union]

/-- Witness for C3: two matching OFFERs carrying the same server address
(deduplicated to one entry) plus one mismatching OFFER (ignored). -/
theorem receive_offers_exact_witness :
    (∀ d ∈ [mkOffer [0, 0, 0, 1] [10, 0, 0, 1],
        mkOffer [0, 0, 0, 1] [10, 0, 0, 1],
        mkOffer [9, 9, 9, 9] [10, 0, 0, 2]], 249 ≤ d.length) ∧
    receive_offers [0, 0, 0, 1]
        [mkOffer [0, 0, 0, 1] [10, 0, 0, 1],
          mkOffer [0, 0, 0, 1] [10, 0, 0, 1],
          mkOffer [9, 9, 9, 9] [10, 0, 0, 2]] =
      some ((([mkOffer [0, 0, 0, 1] [10, 0, 0, 1],
          mkOffer [0, 0, 0, 1] [10, 0, 0, 1],
          mkOffer [9, 9, 9, 9] [10, 0, 0, 2]].filter
            fun d => offerTransactionID d == [0, 0, 0, 1]).filterMap
        offerServerID).toFinset) :=
  ⟨by decide, receive_offers_exact [0, 0, 0, 1] _ (by decide)⟩

/-- Counterexample for C6 as stated ("of any length"): a 10-byte datagram
whose transaction-ID field differs from the sent one is not silently
discarded — processing it raises an error (the decode fails in
`inet_ntoa`), aborting the loop instead of leaving the set unchanged. -/
theorem receive_step_short_errors :
    offerTransactionID (List.replicate 10 0) ≠ [0, 0, 0, 1] ∧
    receive_step [0, 0, 0, 1] ∅ (List.replicate 10 0) = none := by
  exact ⟨by decide, rfl⟩

/-- Claim C6 (amended): for every received datagram of at least 249 bytes
whose transaction-ID field differs from the sent transaction ID, the
listening loop discards it silently — processing raises no error and
leaves the accumulated result set unchanged.  (Datagrams shorter than 249
bytes instead raise a decode error.) -/
theorem receive_step_mismatch_ignored (tid data : List Nat)
    (servers : Finset String) (hlen : 249 ≤ data.length)
    (hne : offerTransactionID data ≠ tid) :
    receive_step tid servers data = some servers := by
  obtain ⟨s, hs, hdec⟩ := decodeOffer_eq hlen
  simp [receive_step, hdec, hne]

/-- Witness for the amended C6 at a concrete mismatching OFFER. -/
theorem receive_step_mismatch_ignored_witness :
    249 ≤ (mkOffer [7, 7, 7, 7] [10, 0, 0, 9]).length ∧
    offerTransactionID (mkOffer [7, 7, 7, 7] [10, 0, 0, 9]) ≠ [0, 0, 0, 1] ∧
    receive_step [0, 0, 0, 1] ∅ (mkOffer [7, 7, 7, 7] [10, 0, 0, 9]) =
      some ∅ :=
  ⟨by decide, by decide,
    receive_step_mismatch_ignored [0, 0, 0, 1] _ ∅ (by decide) (by decide)⟩

/-- Counterexample for C7 as stated: on a stream containing one 10-byte
datagram, the loop terminates because of the received datagram (a raised
decode error), not because of a timeout, and the accumulated set is not
returned. -/
theorem receive_offers_short_aborts :
    receive_offers [0, 0, 0, 1] [List.replicate 10 0] = none ∧
    receive_offers [0, 0, 0, 1] [List.replicate 10 0] ≠ some ∅ :=
  ⟨rfl, by decide⟩

/-- Claim C7 (amended): for every finite stream of incoming datagrams,
each of at least 249 bytes, followed by an idle-read timeout,
`receive_offers` terminates and returns its accumulated set; the timeout
(exhausted stream) returns the set, and receiving a well-formed datagram
is never a termination condition — the loop continues on it.  (A datagram
shorter than 249 bytes instead aborts the loop with an error.) -/
theorem receive_offers_timeout_termination (tid : List Nat)
    (stream : List (List Nat)) (h : ∀ d ∈ stream, 249 ≤ d.length) :
    (∃ S, receive_offers tid stream = some S) ∧
    (∀ servers : Finset String,
      receive_offers_aux tid [] servers = some servers) ∧
    (∀ (d : List Nat) (rest : List (List Nat)) (servers : Finset String),
      249 ≤ d.length →
      ∃ next, receive_offers_aux tid (d :: rest) servers =
        receive_offers_aux tid rest next) := by
  refine ⟨⟨_, by rw [receive_offers, receive_offers_aux_spec tid stream ∅ h]⟩,
    fun servers => rfl, fun d rest servers hd => ?_⟩
  obtain ⟨s, hs, hdec⟩ := decodeOffer_eq hd
  refine ⟨if offerTransactionID d = tid then insert s servers else servers, ?_⟩
  simp only [receive_offers_aux, receive_step, hdec]

/-- Witness for the amended C7 at a concrete stream. -/
theorem receive_offers_timeout_termination_witness :
    (∀ d ∈ [mkOffer [0, 0, 0, 1] [10, 0, 0, 1]], 249 ≤ d.length) ∧
    (∃ S, receive_offers [0, 0, 0, 1]
      [mkOffer [0, 0, 0, 1] [10, 0, 0, 1]] = some S) :=
  ⟨by decide,
    (receive_offers_timeout_termination [0, 0, 0, 1] _ (by decide)).1⟩

/-- Claim C4: `probe_interface` absorbs a probe failure with errno
`EADDRNOTAVAIL` or `ENODEV` into an empty result set without raising;
any other failure (an `IOError` with a different errno, or a non-IOError
failure) propagates unchanged; and a successful probe result is returned
unchanged. -/
theorem probe_interface_spec :
    (probe_interface (.ioError errno_EADDRNOTAVAIL) = .ok ∅) ∧
    (probe_interface (.ioError errno_ENODEV) = .ok ∅) ∧
    (∀ e, e ≠ errno_EADDRNOTAVAIL → e ≠ errno_ENODEV →
      probe_interface (.ioError e) = .ioError e) ∧
    (∀ servers, probe_interface (.ok servers) = .ok servers) ∧
    (probe_interface .otherError = .otherError) := by
  refine ⟨rfl, rfl, fun e h1 h2 => ?_, fun servers => rfl, rfl⟩
  simp [probe_interface, h1, h2]

/-- Witness for C4: a probe failing with an unrelated errno (EPERM = 1)
propagates unchanged. -/
theorem probe_interface_spec_witness :
    (1 : Nat) ≠ errno_EADDRNOTAVAIL ∧ (1 : Nat) ≠ errno_ENODEV ∧
    probe_interface (.ioError 1) = .ioError 1 :=
  ⟨by decide, by decide, probe_interface_spec.2.2.1 1 (by decide) (by decide)⟩

end DhcpDetect
